import Mathlib

/-!
Shallow embedding of the ProcessLink connection/tag polling engine
(src/process_link/connection.py and src/process_link/connections/logix.py).

Python values appearing in configuration dicts are modelled by `PyVal`,
Python dicts by association lists, Python exceptions by `PyError` through
`Except`.  Methods of `Connection` become explicit state-passing functions.
The polling loop's single cycle is embedded as a sequence of statement
steps over a `LoopState`, recording the externally visible events
(lock acquire/release, sink submission, sleep call) so that ordering
properties can be stated.
-/

/-- A Python value as it occurs in the params dicts of this code base. -/
inductive PyVal where
  | vStr (s : String)
  | vNum (q : ℚ)
  | vBool (b : Bool)
  | vNone
deriving DecidableEq, Repr

/-- Python truthiness, as used by the `x or default` idiom in logix.py. -/
def PyVal.truthy : PyVal → Bool
  | .vStr s => s ≠ ""
  | .vNum q => q ≠ 0
  | .vBool b => b
  | .vNone => false

/-- The `a or b` expression of Python on `PyVal`s. -/
def pyOr (a b : PyVal) : PyVal := if a.truthy then a else b

/-- The Python exceptions raised by this code: `KeyError` (carrying the
missing key), `PropertyError` from process_link.api (carrying the message),
and `ValueError` (raised by `time.sleep` on a negative argument). -/
inductive PyError where
  | keyError (k : String)
  | propertyError (msg : String)
  | valueError (msg : String)
deriving DecidableEq, Repr

/-- A params dict: association list from string keys to Python values. -/
def Params := List (String × PyVal)

/-- Dict lookup, `d.get(k)` / `d[k]` distinguished by how the caller treats
`none`. -/
def Params.get (p : Params) (k : String) : Option PyVal :=
  match p with
  | [] => none
  | (k', v) :: rest => if k' = k then some v else Params.get rest k

/-- Dict update `d[k] = v`: replaces the value at `k` or appends the pair. -/
def Params.set (p : Params) (k : String) (v : PyVal) : Params :=
  match p with
  | [] => [(k, v)]
  | (k', v') :: rest =>
      if k' = k then (k', v) :: rest else (k', v') :: Params.set rest k v

/-- Modelled from the spec: the base `Tag` class of src/process_link/tag.py,
which is not among the sources (only connection.py and logix.py are).
Spec section 4.1: a Tag carries `id`, `connection_id`, `description`,
`datatype`, `tag_type` and a value contract. -/
structure Tag where
  id : PyVal
  connection_id : PyVal
  description : PyVal
  datatype : PyVal
  tag_type : String
  value : PyVal
deriving DecidableEq, Repr

/-- Modelled from the spec: `Tag` construction (src/process_link/tag.py is
missing from the sources).  Spec section 4.1: `create(params)` requires
`id` and `connection_id`; optional fields default to empty/neutral values;
it fails with a `MissingProperty` error (a `PropertyError`, following the
pattern of connection.py line 95 and logix.py line 37) if either required
field is absent. -/
def Tag.init (params : Params) : Except PyError Tag :=
  match params.get "id" with
  | none => .error (.propertyError "Missing expected property id")
  | some i =>
    match params.get "connection_id" with
    | none => .error (.propertyError "Missing expected property connection_id")
    | some cid =>
      .ok { id := i
            connection_id := cid
            description := (params.get "description").getD (.vStr "")
            datatype := (params.get "datatype").getD .vNone
            tag_type := "local"
            value := (params.get "value").getD .vNone }

/-- `LogixTag` (logix.py lines 8-37): a `Tag` extended with an `address`. -/
structure LogixTag where
  base : Tag
  address : PyVal
deriving DecidableEq, Repr

/-- `LogixTag.__init__` (logix.py lines 29-37): runs the base `Tag`
constructor, sets `tag_type` to `"logix"`, then requires `params['address']`,
raising `PropertyError` on `KeyError`. -/
def LogixTag.init (params : Params) : Except PyError LogixTag :=
  match Tag.init params with
  | .error e => .error e
  | .ok t =>
    match params.get "address" with
    | none => .error (.propertyError "Missing expected property address")
    | some a => .ok { base := { t with tag_type := "logix" }, address := a }

/-- The `Connection` state (connection.py lines 86-106): identity and
configuration fields, the tag map, the polled-tag id list, and the
`polling` flag.  The `thread_lock` flag lives in the loop model below. -/
structure Connection where
  id : PyVal
  connection_type : String
  description : PyVal
  pollrate : PyVal
  tags : List (PyVal × Tag)
  polled_tags : List String
  polling : Bool
deriving DecidableEq, Repr

/-- `Connection.__init__` (connection.py lines 86-106): probes `params['id']`
and `params['connection_type']`, raising `PropertyError` on `KeyError`;
`connection_type` is hard-set to `"local"`; `description` defaults to the
empty string and `pollrate` to `0.5` when the key is absent; the tag map and
polled-tag list start empty and `polling` false. -/
def Connection.init (params : Params) : Except PyError Connection :=
  match params.get "id" with
  | none => .error (.propertyError "Missing expected property id")
  | some _ =>
    match params.get "connection_type" with
    | none => .error (.propertyError "Missing expected property connection_type")
    | some _ =>
      .ok { id := (params.get "id").getD .vNone
            connection_type := "local"
            description :=
              match params.get "description" with
              | none => .vStr ""
              | some v => v
            pollrate :=
              match params.get "pollrate" with
              | none => .vNum (1/2)
              | some v => v
            tags := []
            polled_tags := []
            polling := false }

/-- `LogixConnection` (logix.py lines 52-107): a `Connection` with extra
connectivity fields. -/
structure LogixConnection where
  base : Connection
  auto_connect : PyVal
  host : PyVal
  port : PyVal
deriving DecidableEq, Repr

/-- `LogixConnection.__init__` (logix.py lines 96-107): runs the base
constructor, overrides `connection_type` to `"logix"`, and applies the
`params.get(k) or default` idiom for `pollrate` (1.0), `auto_connect`
(False), `port` (44818) and `host` ("127.0.0.1"). -/
def LogixConnection.init (params : Params) : Except PyError LogixConnection :=
  match Connection.init params with
  | .error e => .error e
  | .ok c =>
    .ok { base :=
            { c with
              connection_type := "logix"
              pollrate := pyOr ((params.get "pollrate").getD .vNone) (.vNum 1) }
          auto_connect := pyOr ((params.get "auto_connect").getD .vNone) (.vBool false)
          host := pyOr ((params.get "host").getD .vNone) (.vStr "127.0.0.1")
          port := pyOr ((params.get "port").getD .vNone) (.vNum 44818) }

/-- Lookup in a string-keyed table of tag constructors. -/
def tableGet (l : List (String × (Params → Except PyError Tag))) (k : String) :
    Option (Params → Except PyError Tag) :=
  match l with
  | [] => none
  | (k', v) :: rest => if k' = k then some v else tableGet rest k

/-- `TAG_TYPES` (connection.py line 36): the tag-constructor table, with a
single entry keyed `"local"`. -/
def TAG_TYPES : List (String × (Params → Except PyError Tag)) :=
  [("local", Tag.init)]

/-- Assoc-map update for the tag map `self.tags[key] = tag`. -/
def tagsSet (m : List (PyVal × Tag)) (k : PyVal) (t : Tag) : List (PyVal × Tag) :=
  match m with
  | [] => [(k, t)]
  | (k', t') :: rest =>
      if k' = k then (k', t) :: rest else (k', t') :: tagsSet rest k t

/-- `Connection.new_tag` (connection.py lines 135-146).  It first writes
`params['connection_id'] = self.id`, then evaluates
`self.tags[params["id"]] = TAG_TYPES[self.connection_type](params)`
in Python's order: table lookup, constructor call, subscript `params["id"]`,
then the tag-map store; any `KeyError` raised inside the `try` is converted
to `PropertyError('Error creating tag, unknown type: ...')`, while other
exceptions (such as the constructor's `PropertyError`) propagate.  The
result pairs the connection state after the call with the outcome. -/
def Connection.new_tag (c : Connection) (params : Params) :
    Connection × Except PyError Tag :=
  let params := params.set "connection_id" c.id
  let body : Except PyError (Connection × Tag) :=
    match tableGet TAG_TYPES c.connection_type with
    | none => .error (.keyError c.connection_type)
    | some ctor =>
      match ctor params with
      | .error e => .error e
      | .ok tag =>
        match params.get "id" with
        | none => .error (.keyError "id")
        | some i => .ok ({ c with tags := tagsSet c.tags i tag }, tag)
  match body with
  | .ok (c2, t) => (c2, .ok t)
  | .error (.keyError k) =>
      (c, .error (.propertyError ("Error creating tag, unknown type: " ++ k)))
  | .error e => (c, .error e)

/-- `Connection.set_polling` (connection.py lines 114-118): assigns the
`polling` flag (thread creation is a side effect outside this state). -/
def Connection.set_polling (c : Connection) (should_poll : Bool) : Connection :=
  { c with polling := should_poll }

/-- The first loop of `update_polled_tags` (connection.py lines 188-190):
append each id of `sub_tags` not already present. -/
def addNewTags (polled : List String) : List String → List String
  | [] => polled
  | t :: ts => addNewTags (if t ∈ polled then polled else polled ++ [t]) ts

/-- The `hitlist` computation (connection.py lines 191-194 and 207-210):
the indices of `polled` entries not contained in `sub_tags`. -/
def hitlist (polled sub_tags : List String) : List Nat :=
  (polled.enum.filter (fun p => !(sub_tags.contains p.2))).map Prod.fst

/-- The pop loop `for i in range(len(hitlist)-1, -1, -1): polled_tags.pop(i)`
(connection.py lines 195-196 and 211-212): note the source pops the loop
counter `i` itself, not `hitlist[i]`, so the loop removes the indices
`k-1, k-2, ..., 0` where `k` is the hitlist length.  (Python `pop` would
raise `IndexError` on an out-of-range index; the hitlist length never
exceeds the list length here, so every pop is in range.) -/
def popLoop : List String → Nat → List String
  | l, 0 => l
  | l, k + 1 => popLoop (l.eraseIdx k) k

/-- `Connection.update_polled_tags` (connection.py lines 186-198): append the
new ids, compute the hitlist of retained indices to drop, run the pop loop,
then `set_polling(bool(len(polled_tags)))`. -/
def Connection.update_polled_tags (c : Connection) (sub_tags : List String) :
    Connection :=
  let polled := addNewTags c.polled_tags sub_tags
  let hl := hitlist polled sub_tags
  let polled := popLoop polled hl.length
  Connection.set_polling { c with polled_tags := polled } (polled.length != 0)

/-- The first loop of `remove_polled_tags` (connection.py lines 204-206):
`polled_tags.remove(tag)` for each given id present, removing the first
occurrence. -/
def removeTags (polled : List String) : List String → List String
  | [] => polled
  | t :: ts => removeTags (if t ∈ polled then polled.erase t else polled) ts

/-- `Connection.remove_polled_tags` (connection.py lines 201-214): remove the
given ids, then recompute the hitlist and run the same pop loop as
`update_polled_tags`, then `set_polling(bool(len(polled_tags)))`. -/
def Connection.remove_polled_tags (c : Connection) (sub_tags : List String) :
    Connection :=
  let polled := removeTags c.polled_tags sub_tags
  let hl := hitlist polled sub_tags
  let polled := popLoop polled hl.length
  Connection.set_polling { c with polled_tags := polled } (polled.length != 0)

/-- An externally visible event of one polling cycle: acquiring/releasing
the connection lock, handing the batch to the update sink (recording whether
`thread_lock` was held at the moment of the call), and the call to
`time.sleep` with its argument. -/
inductive PollEvent where
  | acquireLock
  | submitBatch (lockHeld : Bool) (updates : List (String × List (ℚ × ℚ)))
  | releaseLock
  | sleepCall (secs : ℚ)
deriving DecidableEq, Repr

/-- The mutable state threaded through one cycle of `Connection.poll`:
the `thread_lock` flag, the `updates` dict being built, and the trace of
events so far. -/
structure LoopState where
  thread_lock : Bool
  updates : List (String × List (ℚ × ℚ))
  events : List PollEvent
deriving DecidableEq, Repr

/-- Append a sample to `updates[tag]` (assoc-map update). -/
def updatesAppend (u : List (String × List (ℚ × ℚ))) (tag : String)
    (sample : ℚ × ℚ) : List (String × List (ℚ × ℚ)) :=
  match u with
  | [] => [(tag, [sample])]
  | (k, l) :: rest =>
      if k = tag then (k, l ++ [sample]) :: rest
      else (k, l) :: updatesAppend rest tag sample

/-- The batch-building loop of `Connection.poll` (connection.py lines
127-130): for each polled tag, ensure an entry exists and append the
sample `(3.14159, ts)`. -/
def buildUpdates (ts : ℚ) : List String → List (String × List (ℚ × ℚ)) →
    List (String × List (ℚ × ℚ))
  | [], u => u
  | t :: rest, u =>
      let u := if (u.lookup t).isSome then u else u ++ [(t, [])]
      buildUpdates ts rest (updatesAppend u t (314159/100000, ts))

/-- `self.thread_lock = True` after the busy wait (connection.py line 126). -/
def stepAcquire (s : LoopState) : LoopState :=
  { s with thread_lock := true, events := s.events ++ [.acquireLock] }

/-- The batch-building statement (connection.py lines 127-130). -/
def stepBuild (polled : List String) (ts : ℚ) (s : LoopState) : LoopState :=
  { s with updates := buildUpdates ts polled s.updates }

/-- `self.process_link.update_handler.store_updates(updates)`
(connection.py line 131), recording whether the lock flag was set. -/
def stepSubmit (s : LoopState) : LoopState :=
  { s with events := s.events ++ [.submitBatch s.thread_lock s.updates] }

/-- `self.thread_lock = False` (connection.py line 132). -/
def stepRelease (s : LoopState) : LoopState :=
  { s with thread_lock := false, events := s.events ++ [.releaseLock] }

/-- Python's `time.sleep`: raises `ValueError` on a negative argument. -/
def pySleep (secs : ℚ) : Except PyError Unit :=
  if secs < 0 then .error (.valueError "sleep length must be non-negative")
  else .ok ()

/-- One cycle of `Connection.poll` (connection.py lines 121-133), given the
polled-tag list, the pollrate, the cycle-start timestamp `ts` and the value
`now` that `time.time()` returns at line 133: acquire, build, submit,
release, then `time.sleep((ts + pollrate) - now)`.  The result pairs the
final `LoopState` (the sleep call is appended to the trace only when it
succeeded) with the cycle's outcome: `ok` or the exception the sleep
raised. -/
def pollCycle (polled : List String) (pollrate ts now : ℚ) :
    LoopState × Except PyError Unit :=
  let s := stepRelease (stepSubmit (stepBuild polled ts
    (stepAcquire { thread_lock := false, updates := [], events := [] })))
  match pySleep ((ts + pollrate) - now) with
  | .ok _ => ({ s with events := s.events ++ [.sleepCall ((ts + pollrate) - now)] }, .ok ())
  | .error e => (s, .error e)

/-- True when the trace contains a sink submission made with the
`thread_lock` flag set. -/
def submitsWhileLockHeld (tr : List PollEvent) : Bool :=
  tr.any (fun e =>
    match e with
    | .submitBatch true _ => true
    | _ => false)

/-- A control-path mutation of the polled-tag set: one call to
`update_polled_tags` or `remove_polled_tags`. -/
inductive PolledOp where
  | upd (tag_ids : List String)
  | rem (tag_ids : List String)

/-- Apply one polled-tag mutation. -/
def Connection.applyPolledOp (c : Connection) : PolledOp → Connection
  | .upd l => c.update_polled_tags l
  | .rem l => c.remove_polled_tags l

/-- Apply a sequence of polled-tag mutations in order. -/
def Connection.applyPolledOps (c : Connection) (ops : List PolledOp) : Connection :=
  ops.foldl Connection.applyPolledOp c

/-- Minimal valid construction params: just the two required fields. -/
def p0 : Params := [("id", .vStr "c1"), ("connection_type", .vStr "local")]

/-- The connection state `Connection.init p0` produces. -/
def cBase : Connection :=
  { id := .vStr "c1"
    connection_type := "local"
    description := .vStr ""
    pollrate := .vNum (1/2)
    tags := []
    polled_tags := []
    polling := false }

example : Connection.init p0 = .ok cBase := rfl

/-- C1: the claim says `update_polled_tags(tag_ids)` makes the polled set
exactly `tag_ids`.  The code is wrong: the pop loop at connection.py
lines 195-196 pops the loop counter `i` instead of `hitlist[i]`, so from a
fresh connection, `update_polled_tags(["a","b"])` followed by
`update_polled_tags(["a"])` leaves exactly `["b"]`: the requested id `"a"`
is gone and the stale id `"b"` survives. -/
theorem update_polled_tags_pop_bug :
    ((cBase.update_polled_tags ["a", "b"]).update_polled_tags ["a"]).polled_tags
        = ["b"] ∧
    "a" ∉ ((cBase.update_polled_tags ["a", "b"]).update_polled_tags
        ["a"]).polled_tags := by
  decide

/-- C2: the claim says `remove_polled_tags(tag_ids)` removes only the given
ids.  The code is wrong: after the removal loop, the hitlist at
connection.py lines 207-210 collects every remaining index (nothing left is
in `sub_tags`) and the pop loop then drains the list, so from a fresh
connection, `update_polled_tags(["a","b"])` followed by
`remove_polled_tags(["a"])` leaves the empty set instead of `["b"]`. -/
theorem remove_polled_tags_empties :
    ((cBase.update_polled_tags ["a", "b"]).remove_polled_tags ["a"]).polled_tags
        = [] ∧
    ((cBase.update_polled_tags ["a", "b"]).remove_polled_tags ["a"]).polling
        = false := by
  decide

/-- C3: the claim says an overrunning cycle proceeds without sleeping and
without error.  The code is wrong: connection.py line 133 passes the raw
remainder `(ts + pollrate) - time.time()` to `time.sleep`, so a cycle that
took 1 second against a 0.5-second pollrate calls `time.sleep(-0.5)`, which
raises `ValueError`. -/
theorem poll_sleep_negative_raises :
    (pollCycle ["t1"] (1/2) 0 1).2
        = .error (.valueError "sleep length must be non-negative") := by
  norm_num [pollCycle, pySleep]

/-- C4 counterexample: the claim says the batch is handed to the update sink
only after the lock is released.  At the concrete cycle with one polled tag
`"t1"`, pollrate 0.5, `ts = 0` and `now = 0`, the trace contains a sink
submission made with `thread_lock` still set (connection.py line 131 runs
before line 132 clears the flag), refuting the claim. -/
theorem poll_submit_lock_cex :
    submitsWhileLockHeld (pollCycle ["t1"] (1/2) 0 0).1.events = true := by
  norm_num [pollCycle, pySleep, stepAcquire, stepBuild, stepSubmit, stepRelease,
    submitsWhileLockHeld, buildUpdates, updatesAppend]

/-- C4 amended: in every polling cycle the batch is handed to the update
sink while the mutual-exclusion lock is still held; the lock is released
only after the sink call returns. -/
theorem poll_submit_under_lock (polled : List String) (pollrate ts now : ℚ) :
    submitsWhileLockHeld (pollCycle polled pollrate ts now).1.events = true := by
  unfold pollCycle pySleep
  split <;>
    simp [stepAcquire, stepBuild, stepSubmit, stepRelease, submitsWhileLockHeld]

/-- `bool(len(l))` agrees with the negation of emptiness. -/
theorem length_bne_zero (l : List String) : (l.length != 0) = !l.isEmpty := by
  cases l <;> simp

/-- The pop loop drains the whole list when the counter covers its length
(the `update_polled_tags([])` and `remove_polled_tags` situations). -/
theorem popLoop_eq_nil_of_le (k : Nat) :
    ∀ l : List String, l.length ≤ k → popLoop l k = [] := by
  induction k with
  | zero =>
    intro l h
    have : l = [] := List.length_eq_zero.mp (Nat.le_zero.mp h)
    simp [this, popLoop]
  | succ n ih =>
    intro l h
    show popLoop (l.eraseIdx n) n = []
    apply ih
    have hsub := (List.eraseIdx_sublist l n).length_le
    have hlen := List.length_eraseIdx l n
    by_cases hn : n < l.length
    · simp [hn] at hlen; omega
    · simp [hn] at hlen; omega

/-- Against an empty `sub_tags`, every entry lands on the hitlist. -/
theorem length_hitlist_nil (l : List String) :
    (hitlist l []).length = l.length := by
  simp [hitlist, List.enum_length]

/-- The append loop of `update_polled_tags` preserves distinctness of the
polled-tag list. -/
theorem addNewTags_nodup :
    ∀ (ts polled : List String), polled.Nodup → (addNewTags polled ts).Nodup := by
  intro ts
  induction ts with
  | nil => intro polled h; exact h
  | cons t ts ih =>
    intro polled h
    show (addNewTags (if t ∈ polled then polled else polled ++ [t]) ts).Nodup
    by_cases ht : t ∈ polled
    · simpa [ht] using ih polled h
    · have hn : (polled ++ [t]).Nodup := by simp [List.nodup_append, h, ht]
      simpa [ht] using ih _ hn

/-- The pop loop preserves distinctness (each pop is an `eraseIdx`). -/
theorem popLoop_nodup (k : Nat) :
    ∀ l : List String, l.Nodup → (popLoop l k).Nodup := by
  induction k with
  | zero => intro l h; exact h
  | succ n ih =>
    intro l h
    show (popLoop (l.eraseIdx n) n).Nodup
    exact ih _ (h.sublist (List.eraseIdx_sublist l n))

/-- The removal loop of `remove_polled_tags` preserves distinctness. -/
theorem removeTags_nodup :
    ∀ (ts polled : List String), polled.Nodup → (removeTags polled ts).Nodup := by
  intro ts
  induction ts with
  | nil => intro polled h; exact h
  | cons t ts ih =>
    intro polled h
    show (removeTags (if t ∈ polled then polled.erase t else polled) ts).Nodup
    by_cases ht : t ∈ polled
    · simpa [ht] using ih _ (h.sublist (List.erase_sublist t polled))
    · simpa [ht] using ih _ h

/-- `update_polled_tags` preserves distinctness of the polled-tag list. -/
theorem update_polled_tags_nodup (c : Connection) (l : List String)
    (h : c.polled_tags.Nodup) : (c.update_polled_tags l).polled_tags.Nodup := by
  simpa [Connection.update_polled_tags, Connection.set_polling] using
    popLoop_nodup _ _ (addNewTags_nodup _ _ h)

/-- `remove_polled_tags` preserves distinctness of the polled-tag list. -/
theorem remove_polled_tags_nodup (c : Connection) (l : List String)
    (h : c.polled_tags.Nodup) : (c.remove_polled_tags l).polled_tags.Nodup := by
  simpa [Connection.remove_polled_tags, Connection.set_polling] using
    popLoop_nodup _ _ (removeTags_nodup _ _ h)

/-- A freshly constructed connection has an empty polled-tag list. -/
theorem init_polled_tags_nil (params : Params) (c : Connection)
    (h : Connection.init params = .ok c) : c.polled_tags = [] := by
  unfold Connection.init at h
  split at h
  · exact Except.noConfusion h
  · split at h
    · exact Except.noConfusion h
    · injection h with h
      rw [← h]

/-- C5: after every `update_polled_tags` or `remove_polled_tags` call the
`polling` flag equals the non-emptiness of the resulting polled-tag list
(connection.py lines 197 and 213 pass `bool(len(polled_tags))` to
`set_polling`), and in particular `update_polled_tags([])` leaves the flag
false. -/
theorem polling_iff_polled_tags_nonempty (c : Connection) (l : List String) :
    ((c.update_polled_tags l).polling
        = !(c.update_polled_tags l).polled_tags.isEmpty) ∧
    ((c.remove_polled_tags l).polling
        = !(c.remove_polled_tags l).polled_tags.isEmpty) ∧
    (c.update_polled_tags []).polling = false := by
  refine ⟨?_, ?_, ?_⟩
  · simp [Connection.update_polled_tags, Connection.set_polling, length_bne_zero]
  · simp [Connection.remove_polled_tags, Connection.set_polling, length_bne_zero]
  · simp only [Connection.update_polled_tags, Connection.set_polling, addNewTags]
    rw [length_hitlist_nil, popLoop_eq_nil_of_le _ _ (le_refl _)]
    simp

/-- C9: starting from a freshly constructed connection (whose polled-tag
list is empty), the polled-tag list never contains duplicates across any
sequence of `update_polled_tags`/`remove_polled_tags` calls, even when the
argument lists repeat ids. -/
theorem polled_tags_nodup (params : Params) (c : Connection) (ops : List PolledOp)
    (h : Connection.init params = .ok c) :
    (c.applyPolledOps ops).polled_tags.Nodup := by
  have h0 : c.polled_tags = [] := init_polled_tags_nil params c h
  have H : ∀ (ops : List PolledOp) (c : Connection), c.polled_tags.Nodup →
      (c.applyPolledOps ops).polled_tags.Nodup := by
    intro ops
    induction ops with
    | nil => intro c hc; exact hc
    | cons op rest ih =>
      intro c hc
      show (Connection.applyPolledOps (c.applyPolledOp op) rest).polled_tags.Nodup
      cases op with
      | upd l => exact ih _ (update_polled_tags_nodup _ _ hc)
      | rem l => exact ih _ (remove_polled_tags_nodup _ _ hc)
  exact H ops c (by rw [h0]; exact List.nodup_nil)

/-- C9 witness: a concrete run with duplicated argument ids yields a
duplicate-free polled-tag list. -/
theorem polled_tags_nodup_witness :
    (cBase.applyPolledOps
      [.upd ["a", "a", "b"], .rem ["a"], .upd ["c", "c"]]).polled_tags.Nodup :=
  polled_tags_nodup p0 cBase [.upd ["a", "a", "b"], .rem ["a"], .upd ["c", "c"]] rfl

/-- C8: `Connection.init` fails (with a `PropertyError`) precisely when
`id` or `connection_type` is absent from the params; on success,
`description` defaults to the empty string and `pollrate` to `0.5` when
those keys are absent. -/
theorem connection_init_spec (params : Params) :
    ((∃ e, Connection.init params = .error e) ↔
      (params.get "id" = none ∨ params.get "connection_type" = none)) ∧
    (∀ e, Connection.init params = .error e → ∃ m, e = .propertyError m) ∧
    (∀ c, Connection.init params = .ok c →
      (params.get "description" = none → c.description = .vStr "") ∧
      (params.get "pollrate" = none → c.pollrate = .vNum (1/2))) := by
  unfold Connection.init
  cases hid : params.get "id" with
  | none =>
    refine ⟨⟨fun _ => Or.inl rfl, fun _ => ⟨_, rfl⟩⟩, ?_, ?_⟩
    · intro e he
      injection he with he
      exact ⟨_, he.symm⟩
    · intro c hc
      exact Except.noConfusion hc
  | some v =>
    cases hct : params.get "connection_type" with
    | none =>
      refine ⟨⟨fun _ => Or.inr rfl, fun _ => ⟨_, rfl⟩⟩, ?_, ?_⟩
      · intro e he
        injection he with he
        exact ⟨_, he.symm⟩
      · intro c hc
        exact Except.noConfusion hc
    | some w =>
      refine ⟨⟨?_, ?_⟩, ?_, ?_⟩
      · rintro ⟨e, he⟩
        exact Except.noConfusion he
      · rintro (h | h) <;> exact Option.noConfusion h
      · intro e he
        exact Except.noConfusion he
      · intro c hc
        injection hc with hc
        rw [← hc]
        exact ⟨fun hd => by simp [hd], fun hp => by simp [hp]⟩

/-- C8 witness: on the minimal params `p0` (only `id` and
`connection_type`), construction succeeds and both defaults apply. -/
theorem connection_init_spec_witness :
    cBase.description = .vStr "" ∧ cBase.pollrate = .vNum (1/2) := by
  have h := (connection_init_spec p0).2.2 cBase rfl
  exact ⟨h.1 rfl, h.2 rfl⟩

/-- The only entry of `TAG_TYPES` is the base `Tag` constructor. -/
theorem tableGet_TAG_TYPES (ct : String) (ctor : Params → Except PyError Tag)
    (h : tableGet TAG_TYPES ct = some ctor) : ctor = Tag.init := by
  simp only [TAG_TYPES, tableGet] at h
  split at h
  · injection h with h
    exact h.symm
  · exact Option.noConfusion h

/-- `Tag.init` only ever fails with a `PropertyError`. -/
theorem tagInit_error_shape (p : Params) (e : PyError)
    (h : Tag.init p = .error e) : ∃ m, e = .propertyError m := by
  unfold Tag.init at h
  split at h
  · injection h with h
    exact ⟨_, h.symm⟩
  · split at h
    · injection h with h
      exact ⟨_, h.symm⟩
    · exact Except.noConfusion h

/-- C6: `new_tag` fails with the unknown-type `PropertyError` when the
connection's `connection_type` has no entry in `TAG_TYPES`; it propagates
the tag constructor's own `PropertyError` failures; every failure leaves
the connection (in particular its tag map) unchanged and carries a
`PropertyError`; and success stores the new tag in the tag map under the
id found in the (connection_id-augmented) params. -/
theorem new_tag_spec (c : Connection) (params : Params) :
    (∀ e, (c.new_tag params).2 = .error e →
      (c.new_tag params).1 = c ∧ ∃ m, e = .propertyError m) ∧
    (tableGet TAG_TYPES c.connection_type = none →
      (c.new_tag params).2 = .error (.propertyError
        ("Error creating tag, unknown type: " ++ c.connection_type))) ∧
    (∀ ctor m, tableGet TAG_TYPES c.connection_type = some ctor →
      ctor (params.set "connection_id" c.id) = .error (.propertyError m) →
      (c.new_tag params).2 = .error (.propertyError m)) ∧
    (∀ t, (c.new_tag params).2 = .ok t →
      ∃ i, (params.set "connection_id" c.id).get "id" = some i ∧
        (c.new_tag params).1 = { c with tags := tagsSet c.tags i t }) := by
  refine ⟨?_, ?_, ?_, ?_⟩
  · intro e he
    cases htab : tableGet TAG_TYPES c.connection_type with
    | none =>
      simp only [Connection.new_tag, htab] at he ⊢
      injection he with he
      exact ⟨by trivial, _, he.symm⟩
    | some ctor =>
      have hct := tableGet_TAG_TYPES _ _ htab
      subst hct
      cases hc : Tag.init (params.set "connection_id" c.id) with
      | error e' =>
        obtain ⟨m, rfl⟩ := tagInit_error_shape _ _ hc
        simp only [Connection.new_tag, htab, hc] at he ⊢
        injection he with he
        exact ⟨by trivial, _, he.symm⟩
      | ok tag =>
        cases hid : (params.set "connection_id" c.id).get "id" with
        | none =>
          simp only [Connection.new_tag, htab, hc, hid] at he ⊢
          injection he with he
          exact ⟨by trivial, _, he.symm⟩
        | some i =>
          simp only [Connection.new_tag, htab, hc, hid] at he
          exact Except.noConfusion he
  · intro htab
    simp only [Connection.new_tag, htab]
  · intro ctor m htab hc
    simp only [Connection.new_tag, htab, hc]
  · intro t ht
    cases htab : tableGet TAG_TYPES c.connection_type with
    | none =>
      simp only [Connection.new_tag, htab] at ht
      exact Except.noConfusion ht
    | some ctor =>
      cases hc : ctor (params.set "connection_id" c.id) with
      | error e' =>
        have hct := tableGet_TAG_TYPES _ _ htab
        subst hct
        obtain ⟨m, rfl⟩ := tagInit_error_shape _ _ hc
        simp only [Connection.new_tag, htab, hc] at ht
        exact Except.noConfusion ht
      | ok tag =>
        cases hid : (params.set "connection_id" c.id).get "id" with
        | none =>
          simp only [Connection.new_tag, htab, hc, hid] at ht
          exact Except.noConfusion ht
        | some i =>
          simp only [Connection.new_tag, htab, hc, hid] at ht ⊢
          injection ht with ht
          exact ⟨i, rfl, by rw [← ht]⟩

/-- A connection state whose `connection_type` has no `TAG_TYPES` entry. -/
def cFoo : Connection := { cBase with connection_type := "modbus" }

/-- C6 witness: on a connection whose type has no registered constructor,
`new_tag` returns the unknown-type `PropertyError` and the connection is
unchanged. -/
theorem new_tag_spec_witness :
    (cFoo.new_tag []).2 = .error (.propertyError
      ("Error creating tag, unknown type: " ++ "modbus")) ∧
    (cFoo.new_tag []).1 = cFoo := by
  have h := new_tag_spec cFoo []
  have h2 := h.2.1 rfl
  exact ⟨h2, (h.1 _ h2).1⟩

/-- A successfully constructed logix connection exposes `"logix"` as its
`connection_type`. -/
theorem logixInit_connection_type (params : Params) (lc : LogixConnection)
    (h : LogixConnection.init params = .ok lc) :
    lc.base.connection_type = "logix" := by
  unfold LogixConnection.init at h
  split at h
  · exact Except.noConfusion h
  · injection h with h
    rw [← h]

/-- C7: on any logix connection, every `new_tag` call fails, whatever the
tag params: `TAG_TYPES` has no `"logix"` key, so the lookup at
connection.py line 143 raises `KeyError`, caught and re-raised as the
unknown-type `PropertyError`; the tag map is left unchanged. -/
theorem logix_new_tag_always_fails (params tagParams : Params)
    (lc : LogixConnection) (h : LogixConnection.init params = .ok lc) :
    (lc.base.new_tag tagParams).1 = lc.base ∧
    (lc.base.new_tag tagParams).2 = .error (.propertyError
      ("Error creating tag, unknown type: " ++ "logix")) := by
  have hct := logixInit_connection_type params lc h
  have htab : tableGet TAG_TYPES lc.base.connection_type = none := by
    rw [hct]
    rfl
  refine ⟨?_, ?_⟩
  · simp only [Connection.new_tag, htab]
  · simp only [Connection.new_tag, hct]
    rfl

/-- The logix connection state `LogixConnection.init p0` produces. -/
def lcEx : LogixConnection :=
  { base :=
      { id := .vStr "c1"
        connection_type := "logix"
        description := .vStr ""
        pollrate := .vNum 1
        tags := []
        polled_tags := []
        polling := false }
    auto_connect := .vBool false
    host := .vStr "127.0.0.1"
    port := .vNum 44818 }

example : LogixConnection.init p0 = .ok lcEx := rfl

/-- C7 witness: a concrete logix connection rejects a fully populated tag
params dict. -/
theorem logix_new_tag_always_fails_witness :
    (lcEx.base.new_tag [("id", .vStr "t1"), ("address", .vStr "N7:0")]).1
        = lcEx.base ∧
    (lcEx.base.new_tag [("id", .vStr "t1"), ("address", .vStr "N7:0")]).2
        = .error (.propertyError ("Error creating tag, unknown type: " ++ "logix")) :=
  logix_new_tag_always_fails p0 [("id", .vStr "t1"), ("address", .vStr "N7:0")]
    lcEx rfl

/-- C10: constructing a `LogixTag` fails with a `PropertyError` whenever
`address` is absent from the params (logix.py lines 34-37; when a base
required field is missing too, the base constructor's `PropertyError` is
what propagates), and when the base required fields and `address` are all
present it succeeds with its `address` set from the params. -/
theorem logix_tag_requires_address (params : Params) :
    (params.get "address" = none →
      ∃ m, LogixTag.init params = .error (.propertyError m)) ∧
    (∀ i cid a, params.get "id" = some i → params.get "connection_id" = some cid →
      params.get "address" = some a →
      ∃ t, LogixTag.init params = .ok t ∧ t.address = a) := by
  constructor
  · intro ha
    unfold LogixTag.init
    cases hti : Tag.init params with
    | error e =>
      obtain ⟨m, rfl⟩ := tagInit_error_shape _ _ hti
      exact ⟨m, rfl⟩
    | ok t =>
      rw [ha]
      exact ⟨_, rfl⟩
  · intro i cid a hi hcid ha
    unfold LogixTag.init Tag.init
    rw [hi, hcid, ha]
    exact ⟨_, rfl, rfl⟩

/-- Fully populated logix tag params. -/
def pLx : Params :=
  [("id", .vStr "t1"), ("connection_id", .vStr "c1"), ("address", .vStr "N7:0")]

/-- The tag `LogixTag.init pLx` produces. -/
def tagLx : LogixTag :=
  { base :=
      { id := .vStr "t1"
        connection_id := .vStr "c1"
        description := .vStr ""
        datatype := .vNone
        tag_type := "logix"
        value := .vNone }
    address := .vStr "N7:0" }

/-- C10 witness: concrete params with `id`, `connection_id` and `address`
produce a tag whose `address` is the given register address. -/
theorem logix_tag_requires_address_witness :
    LogixTag.init pLx = .ok tagLx ∧ tagLx.address = .vStr "N7:0" := by
  obtain ⟨t, ht, ha⟩ := (logix_tag_requires_address pLx).2 (.vStr "t1") (.vStr "c1")
    (.vStr "N7:0") rfl rfl rfl
  have h0 : LogixTag.init pLx = .ok tagLx := rfl
  rw [h0] at ht
  injection ht with ht
  exact ⟨h0, by rw [ht]; exact ha⟩
